import Mathlib

/-!
Shallow embedding of `src/analyzer.js` (a Lighthouse batch-audit pipeline):
the report data model, metric extraction, the batch orchestrator, startup
configuration parsing, and the three report emitters (CSV, HTML, historical
archive), together with theorems about the specified properties.

Numbers are modelled as exact rationals (`ℚ`); `Math.round` is `⌊q + 1/2⌋`;
JavaScript `null`/`undefined` fields are `Option`; a failing audit invocation
is `Except.error` carrying the error message.
-/

namespace Analyzer

/-- JavaScript `Math.round`: round half toward positive infinity. -/
def jsRound (q : ℚ) : ℤ := (q + 1 / 2).floor

/-- One category entry of a Lighthouse report; `score` is `null`-able. -/
structure Category where
  score : Option ℚ
deriving DecidableEq, Repr

/-- The four category entries the invocation requests (`report.categories`). -/
structure Categories where
  performance : Category
  accessibility : Category
  bestPractices : Category
  seo : Category
deriving DecidableEq, Repr

/-- One audit entry (`report.audits[...]`); `numericValue` may be missing. -/
structure Audit where
  numericValue : Option ℚ
deriving DecidableEq, Repr

/-- The five audit entries `extractMetrics` reads (`report.audits`); each
entry itself may be absent from the report. -/
structure Audits where
  fcp : Option Audit
  lcp : Option Audit
  tbt : Option Audit
  cls : Option Audit
  si : Option Audit
deriving DecidableEq, Repr

/-- A structurally valid Lighthouse report: the four categories are present
(`extractMetrics` reads through them unconditionally), audits are optional. -/
structure Report where
  categories : Categories
  audits : Audits
deriving DecidableEq, Repr

/-- The per-(URL, profile) record built by `extractMetrics` on success or by
the orchestrator's catch branch on failure.  Success records carry
`error := none` (the JS object has no `error` key). -/
structure MetricSet where
  performance : Option ℤ
  accessibility : Option ℤ
  bestPractices : Option ℤ
  seo : Option ℤ
  fcp : Option ℤ
  lcp : Option ℤ
  tbt : Option ℤ
  cls : Option ℚ
  si : Option ℤ
  error : Option String
deriving DecidableEq, Repr

instance : Inhabited MetricSet :=
  ⟨⟨none, none, none, none, none, none, none, none, none, none⟩⟩

/-- `categories.X.score * 100` with JavaScript semantics: `null * 100 = 0`. -/
def scoreTimes100 (c : Category) : ℚ := c.score.getD 0 * 100

/-- `audits[name]?.numericValue ? Math.round(...) : null`: the optional
chaining plus JS truthiness of the number (0 is falsy). -/
def timingField (a : Option Audit) : Option ℤ :=
  match a.bind Audit.numericValue with
  | none => none
  | some v => if v = 0 then none else some (jsRound v)

/-- `audits['cumulative-layout-shift']?.numericValue ? v : null`: like
`timingField` but the value is kept unrounded. -/
def clsField (a : Option Audit) : Option ℚ :=
  match a.bind Audit.numericValue with
  | none => none
  | some v => if v = 0 then none else some v

/-- `extractMetrics(report)` from `src/analyzer.js` lines 56-72. -/
def extractMetrics (report : Report) : MetricSet :=
  { performance := some (jsRound (scoreTimes100 report.categories.performance))
    accessibility := some (jsRound (scoreTimes100 report.categories.accessibility))
    bestPractices := some (jsRound (scoreTimes100 report.categories.bestPractices))
    seo := some (jsRound (scoreTimes100 report.categories.seo))
    fcp := timingField report.audits.fcp
    lcp := timingField report.audits.lcp
    tbt := timingField report.audits.tbt
    cls := clsField report.audits.cls
    si := timingField report.audits.si
    error := none }

/-- The record assigned in the orchestrator's catch branch: all nine metric
fields `null` plus the error message. -/
def failedMetricSet (msg : String) : MetricSet :=
  { performance := none, accessibility := none, bestPractices := none
    seo := none, fcp := none, lcp := none, tbt := none, cls := none
    si := none, error := some msg }

/-- All nine metric fields of a `MetricSet` are absent. -/
def MetricSet.allAbsent (ms : MetricSet) : Prop :=
  ms.performance = none ∧ ms.accessibility = none ∧ ms.bestPractices = none ∧
  ms.seo = none ∧ ms.fcp = none ∧ ms.lcp = none ∧ ms.tbt = none ∧
  ms.cls = none ∧ ms.si = none

instance (ms : MetricSet) : Decidable ms.allAbsent := by
  unfold MetricSet.allAbsent; infer_instance

/-- Device profile of an audit invocation. -/
inductive Profile where
  | mobile
  | desktop
deriving DecidableEq, Repr

/-- The outcome of one external audit invocation (`runLighthouse`): a parsed
report, or an `AuditFailure` carrying the error's message. -/
def AuditFn : Type := String → Profile → Except String Report

/-- One entry of the batch result: the URL plus its two metric sets. -/
structure UrlResult where
  url : String
  desktop : MetricSet
  mobile : MetricSet
deriving DecidableEq, Repr

instance : Inhabited UrlResult := ⟨⟨"", default, default⟩⟩

/-- The per-profile branch of the orchestration loop: extract metrics on
success, substitute the all-absent failure record on `AuditFailure`. -/
def profileResult (audit : AuditFn) (url : String) (p : Profile) : MetricSet :=
  match audit url p with
  | .ok report => extractMetrics report
  | .error msg => failedMetricSet msg

/-- `analyzeUrls` from `src/analyzer.js` lines 74-137: sequential loop over
the URLs, mobile then desktop per URL, pushing one result record per URL. -/
def analyzeUrls (urls : List String) (audit : AuditFn) : List UrlResult :=
  urls.map fun url =>
    { url := url
      desktop := profileResult audit url .desktop
      mobile := profileResult audit url .mobile }

/-- Whitespace characters removed by JavaScript `String.prototype.trim`
(the ASCII ones). -/
def isTrimChar (c : Char) : Bool :=
  c == ' ' || c == '\t' || c == '\n' || c == '\r'

/-- JavaScript `s.trim()`: strip leading and trailing whitespace. -/
def jsTrim (s : String) : String :=
  String.mk (((s.data.dropWhile isTrimChar).reverse.dropWhile isTrimChar).reverse)

/-- JavaScript `s.split(',')` on the character list: splitting the empty
string yields one empty group. -/
def splitCommaAux : List Char → List (List Char)
  | [] => [[]]
  | c :: rest =>
    match splitCommaAux rest with
    | [] => [[]]
    | grp :: grps =>
      if c = ',' then [] :: grp :: grps else (c :: grp) :: grps

/-- JavaScript `s.split(',')`. -/
def jsSplitComma (s : String) : List String :=
  (splitCommaAux s.data).map String.mk

/-- URL-list parsing from `src/analyzer.js` lines 18-21:
`split(',').map(url => url.trim()).filter(url => url.length > 0)`. -/
def parseUrls (s : String) : List String :=
  ((jsSplitComma s).map jsTrim).filter fun u => u.length > 0

/-- Observable outcome of one program run: exit code, number of external
audit invocations, and the finalized batch result (if reached). -/
structure ProgramRun where
  exitCode : ℕ
  auditInvocations : ℕ
  batch : Option (List UrlResult)
deriving DecidableEq, Repr

/-- Startup and orchestration of `src/analyzer.js` lines 9-27 and 377-391:
missing or blank `LIGHTHOUSE_URLS` exits 1 before any audit; a parse
yielding no URLs exits 1 before any audit; otherwise every URL is audited
for both profiles and the run exits 0. -/
def runProgram (env : Option String) (audit : AuditFn) : ProgramRun :=
  let urlsFromEnv := env.getD ""
  if urlsFromEnv = "" ∨ jsTrim urlsFromEnv = "" then
    ⟨1, 0, none⟩
  else
    let urls := parseUrls urlsFromEnv
    if urls = [] then
      ⟨1, 0, none⟩
    else
      ⟨0, 2 * urls.length, some (analyzeUrls urls audit)⟩

/-- JavaScript `Array.prototype.join(sep)`. -/
def joinSep (sep : String) : List String → String
  | [] => ""
  | [a] => a
  | a :: b :: rest => a ++ sep ++ joinSep sep (b :: rest)

/-- One CSV cell for an integer metric: `v ?? 'ERROR'`. -/
def csvCellI : Option ℤ → String
  | none => "ERROR"
  | some v => toString v

/-- One CSV cell for the unrounded CLS metric: `v ?? 'ERROR'`. -/
def csvCellQ : Option ℚ → String
  | none => "ERROR"
  | some v => toString v

/-- The nine metric cells of one profile's `MetricSet`, in the column order
of `src/analyzer.js` lines 177-178. -/
def msCells (ms : MetricSet) : List String :=
  [csvCellI ms.performance, csvCellI ms.accessibility,
   csvCellI ms.bestPractices, csvCellI ms.seo, csvCellI ms.fcp,
   csvCellI ms.lcp, csvCellI ms.tbt, csvCellQ ms.cls, csvCellI ms.si]

/-- The 19 cells of one data row: URL, nine desktop cells, nine mobile. -/
def csvRow (r : UrlResult) : List String :=
  r.url :: (msCells r.desktop ++ msCells r.mobile)

/-- The 19 header column names from `src/analyzer.js` lines 168-170. -/
def csvHeaderCells : List String :=
  ["URL",
   "Desktop Performance", "Desktop Accessibility", "Desktop Best Practices",
   "Desktop SEO", "Desktop FCP (ms)", "Desktop LCP (ms)", "Desktop TBT (ms)",
   "Desktop CLS", "Desktop SI (ms)",
   "Mobile Performance", "Mobile Accessibility", "Mobile Best Practices",
   "Mobile SEO", "Mobile FCP (ms)", "Mobile LCP (ms)", "Mobile TBT (ms)",
   "Mobile CLS", "Mobile SI (ms)"]

/-- The literal `csvHeader` string of `src/analyzer.js` lines 168-170. -/
def csvHeader : String :=
  "URL," ++
  "Desktop Performance,Desktop Accessibility,Desktop Best Practices,Desktop SEO,Desktop FCP (ms),Desktop LCP (ms),Desktop TBT (ms),Desktop CLS,Desktop SI (ms)," ++
  "Mobile Performance,Mobile Accessibility,Mobile Best Practices,Mobile SEO,Mobile FCP (ms),Mobile LCP (ms),Mobile TBT (ms),Mobile CLS,Mobile SI (ms)\n"

/-- One data line: the row's 19 cells comma-joined (the template literal of
lines 176-178). -/
def csvLine (r : UrlResult) : String := joinSep "," (csvRow r)

/-- `csvContent` of `saveResultsToCSV` (lines 172-181): header string plus
the newline-joined data lines. -/
def csvContent (results : List UrlResult) : String :=
  csvHeader ++ joinSep "\n" (results.map csvLine)

/-- The full table as rows of cells: header row plus one row per URL result. -/
def csvTable (results : List UrlResult) : List (List String) :=
  csvHeaderCells :: results.map csvRow

/-- `score ?? 'ERR'` rendering in the HTML score cells. -/
def scoreText : Option ℤ → String
  | none => "ERR"
  | some v => toString v

/-- `getEmojiHTML(score)` from `src/analyzer.js` lines 362-367. -/
def getEmojiHTML (score : Option ℤ) : String :=
  match score with
  | none => "⚫"
  | some s => if s ≥ 90 then "🟢" else if s ≥ 50 then "🟡" else "🔴"

/-- The head of the HTML template (line 198 up to the `date` slot). -/
def htmlDocTop1 : String :=
"<!DOCTYPE html>
<html>
<head>
  <meta charset=\"UTF-8\">
  <style>
    body \x7b
      font-family: \x27Segoe UI\x27, Tahoma, Geneva, Verdana, sans-serif;
      background-color: #f5f5f5;
      margin: 0;
      padding: 20px;
    \x7d
    .container \x7b
      max-width: 1200px;
      margin: 0 auto;
      background-color: white;
      padding: 30px;
      border-radius: 8px;
      box-shadow: 0 2px 4px rgba(0,0,0,0.1);
    \x7d
    h1 \x7b
      color: #333;
      border-bottom: 3px solid #4CAF50;
      padding-bottom: 10px;
      margin-bottom: 20px;
    \x7d
    .date \x7b
      color: #666;
      font-size: 14px;
      margin-bottom: 20px;
    \x7d
    table \x7b
      width: 100%;
      border-collapse: collapse;
      margin-top: 20px;
      font-size: 13px;
    \x7d
    th \x7b
      background-color: #4CAF50;
      color: white;
      padding: 12px 8px;
      text-align: center;
      font-weight: 600;
      border: 1px solid #ddd;
    \x7d
    td \x7b
      padding: 10px 8px;
      border: 1px solid #ddd;
      text-align: center;
    \x7d
    .url-cell \x7b
      text-align: left;
      font-weight: 500;
      max-width: 300px;
      overflow: hidden;
      text-overflow: ellipsis;
      white-space: nowrap;
    \x7d
    tr:nth-child(even) \x7b
      background-color: #f9f9f9;
    \x7d
    tr:hover \x7b
      background-color: #f0f0f0;
    \x7d
    .device-header \x7b
      background-color: #2196F3;
      color: white;
    \x7d
    .score \x7b
      font-weight: 600;
      font-size: 14px;
    \x7d
    .footer \x7b
      margin-top: 30px;
      padding-top: 20px;
      border-top: 1px solid #ddd;
      text-align: center;
      color: #666;
      font-size: 12px;
    \x7d
  </style>
</head>
<body>
  <div class=\"container\">
    <h1>📊 Lighthouse Analysis Report</h1>
    <div class=\"date\">Fecha: "

/-- Between the `date` slot and the `results.length` slot. -/
def htmlDocTop2 : String :=
"</div>
    <div class=\"date\">URLs analizadas: "

/-- After the `results.length` slot, up to `<tbody>` (line 314). -/
def htmlDocTop3 : String :=
"</div>

    <div style=\"background: #e3f2fd; border-left: 4px solid #2196F3; padding: 15px; margin: 20px 0; border-radius: 4px;\">
      <p style=\"margin: 0; color: #1976d2; font-weight: 600; font-size: 14px;\">
        📊 <strong>Dashboard Histórico:</strong>
        <a href=\"https://analyzerbotreporter-crypto.github.io/HL/dashboard.html\"
           style=\"color: #1976d2; text-decoration: none; border-bottom: 2px solid #2196F3;\">
          Ver evolución de todas las métricas
        </a>
      </p>
    </div>

    <table>
      <thead>
        <tr>
          <th rowspan=\"2\" style=\"vertical-align: middle;\">URL</th>
          <th colspan=\"4\" class=\"device-header\">🖥️ DESKTOP</th>
          <th colspan=\"4\" class=\"device-header\">📱 MOBILE</th>
        </tr>
        <tr>
          <th>Perf</th>
          <th>Acc</th>
          <th>BP</th>
          <th>SEO</th>
          <th>Perf</th>
          <th>Acc</th>
          <th>BP</th>
          <th>SEO</th>
        </tr>
      </thead>
      <tbody>
"

/-- One `<td class="score">` cell: indicator emoji, a space, the score. -/
def htmlScoreCell (x : Option ℤ) : String :=
  "<td class=\"score\">" ++ getEmojiHTML x ++ " " ++ scoreText x ++ "</td>"

/-- One table row appended per URL result (lines 320-331): desktop's four
scores then mobile's four. -/
def htmlRow (r : UrlResult) : String :=
  "        <tr>\n          <td class=\"url-cell\" title=\"" ++ r.url ++
  "\">" ++ r.url ++ "</td>\n          " ++
  htmlScoreCell r.desktop.performance ++ "\n          " ++
  htmlScoreCell r.desktop.accessibility ++ "\n          " ++
  htmlScoreCell r.desktop.bestPractices ++ "\n          " ++
  htmlScoreCell r.desktop.seo ++ "\n          " ++
  htmlScoreCell r.mobile.performance ++ "\n          " ++
  htmlScoreCell r.mobile.accessibility ++ "\n          " ++
  htmlScoreCell r.mobile.bestPractices ++ "\n          " ++
  htmlScoreCell r.mobile.seo ++ "\n        </tr>\n"

/-- The closing fragment of the template (lines 334-351). -/
def htmlFooter : String :=
"      </tbody>
    </table>

    <div class=\"footer\">
      <p>🟢 ≥90 | 🟡 50-89 | 🔴 <50</p>
      <p>Generado automáticamente por Lighthouse Analyzer</p>
      <p style=\"margin-top: 20px; padding-top: 15px; border-top: 1px solid #ddd; font-size: 13px; color: #495057;\">
        <strong>Leyenda de métricas:</strong><br>
        <span style=\"display: inline-block; margin-right: 15px;\">⚡ <strong>Perf</strong> = Performance</span>
        <span style=\"display: inline-block; margin-right: 15px;\">♿ <strong>Acc</strong> = Accessibility</span>
        <span style=\"display: inline-block; margin-right: 15px;\">✨ <strong>BP</strong> = Best Practices</span>
        <span style=\"display: inline-block;\">🔍 <strong>SEO</strong> = Search Engine Optimization</span>
      </p>
    </div>

  </div>
</body>
</html>"

/-- The whole HTML document for a given batch and locale-formatted date:
head with date and URL count, one row per result, footer. -/
def htmlContent (results : List UrlResult) (date : String) : String :=
  htmlDocTop1 ++ date ++ htmlDocTop2 ++ toString results.length ++
  htmlDocTop3 ++ String.join (results.map htmlRow) ++ htmlFooter

/-- One clock reading, as the two renderings the program uses:
`toISOString()` and `toLocaleString('es-ES', ...)` of the same `Date`. -/
structure DateVal where
  iso : String
  locale : String
deriving DecidableEq, Repr

/-- The character substitution of `replace(/[:.]/g, '-')`. -/
def dashForColonDot (c : Char) : Char :=
  if c = ':' ∨ c = '.' then '-' else c

/-- `iso.replace(/[:.]/g, '-').slice(0, -5)`: the filename timestamp slug. -/
def tsSlug (iso : String) : String :=
  (String.mk (iso.data.map dashForColonDot)).dropRight 5

/-- The tabular artifact: output filename and file content. -/
structure CsvArtifact where
  filename : String
  content : String
deriving DecidableEq, Repr

/-- The HTML artifact: output filename and file content. -/
structure HtmlArtifact where
  filename : String
  content : String
deriving DecidableEq, Repr

/-- The `historicalData` document of `src/analyzer.js` lines 151-159. -/
structure HistoricalData where
  timestamp : String
  date : String
  results : List UrlResult
deriving DecidableEq, Repr

/-- The archive artifact: output path and the document written to it. -/
structure ArchiveArtifact where
  filename : String
  data : HistoricalData
deriving DecidableEq, Repr

/-- `saveResultsToCSV` (lines 167-189); `now` is its `new Date()` reading at
line 182. -/
def saveResultsToCSV (results : List UrlResult) (now : DateVal) : CsvArtifact :=
  { filename := "lighthouse_results_" ++ tsSlug now.iso ++ ".csv"
    content := csvContent results }

/-- `generateSimplifiedHTMLEmail` (lines 191-360); `d1` is the `new Date()`
reading at line 192 (body date), `d2` the one at line 353 (filename). -/
def generateSimplifiedHTMLEmail (results : List UrlResult) (d1 d2 : DateVal) :
    HtmlArtifact :=
  { filename := "lighthouse_email_" ++ tsSlug d2.iso ++ ".html"
    content := htmlContent results d1.locale }

/-- `saveHistoricalData` (lines 139-165); `d1` is the `new Date()` reading at
line 147 (ISO timestamp, also the filename), `d2` the one at line 153
(locale date). -/
def saveHistoricalData (results : List UrlResult) (d1 d2 : DateVal) :
    ArchiveArtifact :=
  { filename := "historical-data/lighthouse_" ++ tsSlug d1.iso ++ ".json"
    data := { timestamp := d1.iso, date := d2.locale, results := results } }

/-- The emission phase of the pipeline (lines 379-381): CSV, then HTML, then
archive; `clock k` is the k-th `new Date()` reading of that phase (the
source reads the clock five times: once in the CSV emitter, twice in the
HTML emitter, twice in the archive writer). -/
def pipelineArtifacts (results : List UrlResult) (clock : ℕ → DateVal) :
    CsvArtifact × HtmlArtifact × ArchiveArtifact :=
  (saveResultsToCSV results (clock 0),
   generateSimplifiedHTMLEmail results (clock 1) (clock 2),
   saveHistoricalData results (clock 3) (clock 4))

/-- The JSON documents `JSON.stringify` serializes: null, numbers (exact
rationals here), strings, arrays, objects with ordered keys. -/
inductive Json where
  | null : Json
  | num : ℚ → Json
  | str : String → Json
  | arr : List Json → Json
  | obj : List (String × Json) → Json
deriving Inhabited

/-- A nullable integer field as JSON. -/
def optIntJson : Option ℤ → Json
  | none => Json.null
  | some v => Json.num (v : ℚ)

/-- A nullable number field as JSON. -/
def optRatJson : Option ℚ → Json
  | none => Json.null
  | some v => Json.num v

/-- The JSON object `JSON.stringify` produces for a `MetricSet`: the nine
metric keys in insertion order, plus an `error` key only when the record
came from the failure branch (success records have no `error` key). -/
def MetricSet.toJson (ms : MetricSet) : Json :=
  Json.obj
    ([("performance", optIntJson ms.performance),
      ("accessibility", optIntJson ms.accessibility),
      ("bestPractices", optIntJson ms.bestPractices),
      ("seo", optIntJson ms.seo),
      ("fcp", optIntJson ms.fcp),
      ("lcp", optIntJson ms.lcp),
      ("tbt", optIntJson ms.tbt),
      ("cls", optRatJson ms.cls),
      ("si", optIntJson ms.si)] ++
     (match ms.error with
      | none => []
      | some e => [("error", Json.str e)]))

/-- The JSON object for one `UrlResult` (keys in insertion order of the
`result` literal at lines 83-87). -/
def UrlResult.toJson (r : UrlResult) : Json :=
  Json.obj [("url", Json.str r.url),
            ("desktop", r.desktop.toJson),
            ("mobile", r.mobile.toJson)]

/-- The archived document (lines 151-159) as JSON. -/
def HistoricalData.toJson (h : HistoricalData) : Json :=
  Json.obj [("timestamp", Json.str h.timestamp),
            ("date", Json.str h.date),
            ("results", Json.arr (h.results.map UrlResult.toJson))]

/-- First value bound to a key in a JSON object, none otherwise. -/
def Json.getField (j : Json) (k : String) : Option Json :=
  match j with
  | Json.obj fields => fields.lookup k
  | _ => none

/-- Modelled from the spec: "deserializing a written archive file" — reading
back a nullable integer field of the archive document. -/
def decodeOptInt : Option Json → Option (Option ℤ)
  | some Json.null => some none
  | some (Json.num q) => if q.den = 1 then some (some q.num) else none
  | _ => none

/-- Modelled from the spec: reading back a nullable number field. -/
def decodeOptRat : Option Json → Option (Option ℚ)
  | some Json.null => some none
  | some (Json.num q) => some (some q)
  | _ => none

/-- Modelled from the spec: reading back a string field. -/
def decodeStr : Option Json → Option String
  | some (Json.str s) => some s
  | _ => none

/-- Modelled from the spec: reading back the optional `error` key (absent
key means a success record). -/
def decodeErrField : Option Json → Option (Option String)
  | none => some none
  | some (Json.str s) => some (some s)
  | _ => none

/-- Modelled from the spec: deserializing one profile's metric record from
the archive document. -/
def MetricSet.fromJson (j : Json) : Option MetricSet := do
  let performance ← decodeOptInt (j.getField "performance")
  let accessibility ← decodeOptInt (j.getField "accessibility")
  let bestPractices ← decodeOptInt (j.getField "bestPractices")
  let seo ← decodeOptInt (j.getField "seo")
  let fcp ← decodeOptInt (j.getField "fcp")
  let lcp ← decodeOptInt (j.getField "lcp")
  let tbt ← decodeOptInt (j.getField "tbt")
  let cls ← decodeOptRat (j.getField "cls")
  let si ← decodeOptInt (j.getField "si")
  let error ← decodeErrField (j.getField "error")
  pure ⟨performance, accessibility, bestPractices, seo, fcp, lcp, tbt, cls,
        si, error⟩

/-- Modelled from the spec: deserializing one URL's entry. -/
def UrlResult.fromJson (j : Json) : Option UrlResult := do
  let url ← decodeStr (j.getField "url")
  let desktop ← MetricSet.fromJson (← j.getField "desktop")
  let mobile ← MetricSet.fromJson (← j.getField "mobile")
  pure ⟨url, desktop, mobile⟩

/-- Modelled from the spec: deserializing a list of entries elementwise. -/
def decodeResultList : List Json → Option (List UrlResult)
  | [] => some []
  | j :: rest => do
    let r ← UrlResult.fromJson j
    let rs ← decodeResultList rest
    pure (r :: rs)

/-- Modelled from the spec: deserializing the whole archive document back
into the run timestamp (raw and locale-formatted) and the batch result. -/
def HistoricalData.fromJson (j : Json) : Option HistoricalData := do
  let timestamp ← decodeStr (j.getField "timestamp")
  let date ← decodeStr (j.getField "date")
  let results ←
    match j.getField "results" with
    | some (Json.arr js) => decodeResultList js
    | _ => none
  pure ⟨timestamp, date, results⟩

/-- Selector for one of the four category-score fields. -/
inductive ScoreCat where
  | performance
  | accessibility
  | bestPractices
  | seo
deriving DecidableEq, Repr

/-- Replace one category's score in a report, leaving the rest unchanged. -/
def setCatScore (report : Report) (c : ScoreCat) (s : Option ℚ) : Report :=
  match c with
  | .performance => { report with categories := { report.categories with performance := ⟨s⟩ } }
  | .accessibility => { report with categories := { report.categories with accessibility := ⟨s⟩ } }
  | .bestPractices => { report with categories := { report.categories with bestPractices := ⟨s⟩ } }
  | .seo => { report with categories := { report.categories with seo := ⟨s⟩ } }

/-- Project the extracted score field matching a category selector. -/
def catScoreField (ms : MetricSet) (c : ScoreCat) : Option ℤ :=
  match c with
  | .performance => ms.performance
  | .accessibility => ms.accessibility
  | .bestPractices => ms.bestPractices
  | .seo => ms.seo

/-- A concrete structurally valid report used to instantiate theorems. -/
def demoReport : Report :=
  { categories := ⟨⟨some 1⟩, ⟨some 1⟩, ⟨some 1⟩, ⟨some 0⟩⟩
    audits := ⟨some ⟨some 2⟩, some ⟨some 3⟩, none, some ⟨some 1⟩, some ⟨none⟩⟩ }

/-- A report whose FCP audit carries the numeric value exactly 0. -/
def reportZeroFcp : Report :=
  { categories := ⟨⟨some 1⟩, ⟨some 1⟩, ⟨some 1⟩, ⟨some 1⟩⟩
    audits := ⟨some ⟨some 0⟩, none, none, none, none⟩ }

/-- A report with in-range scores and a small positive CLS value. -/
def demoScoredReport : Report :=
  { categories := ⟨⟨some 1⟩, ⟨some 0⟩, ⟨some (1 / 2)⟩, ⟨some (9 / 10)⟩⟩
    audits := ⟨some ⟨some 2⟩, some ⟨some 3⟩, none, some ⟨some (1 / 20)⟩, some ⟨none⟩⟩ }

/-- A concrete audit outcome function: the mobile audit of
`https://b.example` fails, everything else succeeds. -/
def demoAudit : AuditFn := fun url p =>
  if url = "https://b.example" ∧ p = Profile.mobile then
    Except.error "boom"
  else
    Except.ok demoReport

/-- A concrete two-URL input list. -/
def demoUrls : List String := ["https://a.example", "https://b.example"]

/-- Two concrete clock readings one second apart. -/
def dvA : DateVal := ⟨"2026-01-01T00:00:00.000Z", "1 de enero de 2026, 0:00"⟩

/-- See `dvA`. -/
def dvB : DateVal := ⟨"2026-01-01T00:00:01.000Z", "1 de enero de 2026, 0:01"⟩

/-- A clock that advances after its first reading. -/
def clockLag : ℕ → DateVal := fun k => if k = 0 then dvA else dvB

/-- A clock frozen at `dvA`. -/
def clockConstA : ℕ → DateVal := fun _ => dvA

/-! ## Theorems -/

/-- `jsRound` agrees with the mathematical floor of `q + 1/2`. -/
theorem jsRound_eq_floor (q : ℚ) : jsRound q = ⌊q + 1 / 2⌋ := by
  rw [jsRound, Rat.floor_def', ← Rat.floor_def]

/-- C2: for every non-empty URL list, the batch result has exactly one
entry per input URL, its length equals the input length, and the entries
appear in input order (the i-th result's URL is the i-th input URL). -/
theorem analyzeUrls_length_order (urls : List String) (audit : AuditFn)
    (_hne : urls ≠ []) :
    (analyzeUrls urls audit).length = urls.length ∧
    ∀ i : ℕ, ((analyzeUrls urls audit)[i]?).map UrlResult.url = urls[i]? := by
  refine ⟨by simp [analyzeUrls], fun i => ?_⟩
  rw [analyzeUrls, List.getElem?_map]
  cases urls[i]? <;> rfl

/-- C2 witness: the theorem applied to the concrete two-URL input. -/
theorem analyzeUrls_length_order_witness :
    (analyzeUrls demoUrls demoAudit).length = demoUrls.length ∧
    ∀ i : ℕ,
      ((analyzeUrls demoUrls demoAudit)[i]?).map UrlResult.url = demoUrls[i]? :=
  analyzeUrls_length_order demoUrls demoAudit (by decide)

/-- C6: the traffic-light indicator is green for scores at least 90,
yellow for 50-89, red below 50, and neutral for an absent score. -/
theorem getEmojiHTML_thresholds (s : ℤ) :
    (90 ≤ s → getEmojiHTML (some s) = "🟢") ∧
    (50 ≤ s → s ≤ 89 → getEmojiHTML (some s) = "🟡") ∧
    (s < 50 → getEmojiHTML (some s) = "🔴") ∧
    getEmojiHTML none = "⚫" := by
  refine ⟨fun h => ?_, fun h1 h2 => ?_, fun h => ?_, rfl⟩
  · simp [getEmojiHTML, show s ≥ 90 from h]
  · have h90 : ¬s ≥ 90 := by omega
    simp [getEmojiHTML, h90, show s ≥ 50 from h1]
  · have h90 : ¬s ≥ 90 := by omega
    have h50 : ¬s ≥ 50 := by omega
    simp [getEmojiHTML, h90, h50]

/-- C6 witness: score 90 is green, 89 yellow, 49 red, absent neutral. -/
theorem getEmojiHTML_thresholds_witness :
    getEmojiHTML (some 90) = "🟢" ∧ getEmojiHTML (some 89) = "🟡" ∧
    getEmojiHTML (some 49) = "🔴" ∧ getEmojiHTML none = "⚫" :=
  ⟨(getEmojiHTML_thresholds 90).1 (by decide),
   (getEmojiHTML_thresholds 89).2.1 (by decide) (by decide),
   (getEmojiHTML_thresholds 49).2.2.1 (by decide),
   (getEmojiHTML_thresholds 0).2.2.2⟩

/-- C8: a missing or blank URL-list configuration value, or one that parses
to no valid URLs, makes the run exit with code 1, invoke the audit engine
zero times, and produce no batch result. -/
theorem runProgram_fatal_config (env : Option String) (audit : AuditFn)
    (h : jsTrim (env.getD "") = "" ∨ parseUrls (env.getD "") = []) :
    runProgram env audit = ⟨1, 0, none⟩ := by
  rcases h with h | h
  · by_cases hempty : env.getD "" = ""
    · simp [runProgram, hempty]
    · simp [runProgram, hempty, h]
  · by_cases hempty : env.getD "" = "" ∨ jsTrim (env.getD "") = ""
    · simp only [runProgram]
      rw [if_pos hempty]
    · simp only [runProgram]
      rw [if_neg hempty, if_pos h]

/-- C8 witness: a configuration of only whitespace and commas parses to no
URLs and the run is fatal with zero audit invocations. -/
theorem runProgram_fatal_config_witness :
    parseUrls ((some " , ").getD "") = [] ∧
    runProgram (some " , ") demoAudit = ⟨1, 0, none⟩ :=
  ⟨by decide, runProgram_fatal_config (some " , ") demoAudit (Or.inr (by decide))⟩

/-- C10: a report whose category entry carries a `null` score extracts to
score 0 for that category — not an absent value — and the extraction is
identical to that of a report whose category genuinely scored 0. -/
theorem extractMetrics_null_score_is_zero (report : Report) (c : ScoreCat) :
    catScoreField (extractMetrics (setCatScore report c none)) c = some 0 ∧
    extractMetrics (setCatScore report c none) =
      extractMetrics (setCatScore report c (some 0)) := by
  have hz : jsRound (0 : ℚ) = 0 := by
    norm_num [jsRound, Rat.floor_def']
  cases c <;>
    exact ⟨by simp [setCatScore, catScoreField, extractMetrics, scoreTimes100, hz],
           by simp [setCatScore, extractMetrics, scoreTimes100]⟩

/-- The i-th batch entry is built from the i-th URL's two profile outcomes. -/
theorem analyzeUrls_getD (urls : List String) (audit : AuditFn) (i : ℕ)
    (hi : i < urls.length) :
    (analyzeUrls urls audit).getD i default =
      { url := urls.getD i ""
        desktop := profileResult audit (urls.getD i "") Profile.desktop
        mobile := profileResult audit (urls.getD i "") Profile.mobile } := by
  simp [analyzeUrls, List.getD_eq_getElem?_getD, List.getElem?_eq_getElem hi]

/-- C1: if the audit invocation for one profile of a URL fails, that URL's
record stores for that profile the all-absent metric set carrying the error
message; the other profile's metric set is determined by its own invocation
alone (extracted metrics on success, the failure record on failure); and
the orchestrator still returns one record per input URL. -/
theorem analyzeUrls_profile_failure_isolation (urls : List String)
    (audit : AuditFn) (i : ℕ) (hi : i < urls.length) :
    (analyzeUrls urls audit).length = urls.length ∧
    (∀ msg, (failedMetricSet msg).allAbsent ∧
      (failedMetricSet msg).error = some msg) ∧
    (∀ msg, audit (urls.getD i "") Profile.mobile = Except.error msg →
      ((analyzeUrls urls audit).getD i default).mobile = failedMetricSet msg) ∧
    (∀ rep, audit (urls.getD i "") Profile.mobile = Except.ok rep →
      ((analyzeUrls urls audit).getD i default).mobile = extractMetrics rep) ∧
    (∀ msg, audit (urls.getD i "") Profile.desktop = Except.error msg →
      ((analyzeUrls urls audit).getD i default).desktop = failedMetricSet msg) ∧
    (∀ rep, audit (urls.getD i "") Profile.desktop = Except.ok rep →
      ((analyzeUrls urls audit).getD i default).desktop = extractMetrics rep) := by
  refine ⟨by simp [analyzeUrls],
    fun msg => ⟨by simp [failedMetricSet, MetricSet.allAbsent], rfl⟩,
    fun msg h => ?_, fun rep h => ?_, fun msg h => ?_, fun rep h => ?_⟩ <;>
  · rw [analyzeUrls_getD urls audit i hi]
    simp only [List.getD_eq_getElem?_getD] at h
    simp [profileResult, h]

/-- C1 witness: for the concrete batch where only `https://b.example`'s
mobile audit fails, the second record's mobile side is the failure record
and its desktop side is the extraction of the successful report. -/
theorem analyzeUrls_profile_failure_isolation_witness :
    ((analyzeUrls demoUrls demoAudit).getD 1 default).mobile =
      failedMetricSet "boom" ∧
    ((analyzeUrls demoUrls demoAudit).getD 1 default).desktop =
      extractMetrics demoReport ∧
    (analyzeUrls demoUrls demoAudit).length = demoUrls.length :=
  ⟨(analyzeUrls_profile_failure_isolation demoUrls demoAudit 1 (by decide)).2.2.1
      "boom" rfl,
   (analyzeUrls_profile_failure_isolation demoUrls demoAudit 1 (by decide)).2.2.2.2.2
      demoReport rfl,
   (analyzeUrls_profile_failure_isolation demoUrls demoAudit 1 (by decide)).1⟩

/-- A timing field is absent exactly when the source value is missing or 0. -/
theorem timingField_none_iff (a : Option Audit) :
    timingField a = none ↔
      a.bind Audit.numericValue = none ∨ a.bind Audit.numericValue = some 0 := by
  rcases h : a.bind Audit.numericValue with _ | v
  · simp [timingField, h]
  · by_cases hv : v = 0 <;> simp [timingField, h, hv]

/-- A nonzero timing value is extracted rounded. -/
theorem timingField_some (a : Option Audit) (v : ℚ)
    (h : a.bind Audit.numericValue = some v) (hv : v ≠ 0) :
    timingField a = some (jsRound v) := by
  simp [timingField, h, hv]

/-- The CLS field is absent exactly when the source value is missing or 0. -/
theorem clsField_none_iff (a : Option Audit) :
    clsField a = none ↔
      a.bind Audit.numericValue = none ∨ a.bind Audit.numericValue = some 0 := by
  rcases h : a.bind Audit.numericValue with _ | v
  · simp [clsField, h]
  · by_cases hv : v = 0 <;> simp [clsField, h, hv]

/-- A nonzero CLS value is extracted unrounded. -/
theorem clsField_some (a : Option Audit) (v : ℚ)
    (h : a.bind Audit.numericValue = some v) (hv : v ≠ 0) :
    clsField a = some v := by
  simp [clsField, h, hv]

/-- C3 (amended): each timing field of the extracted metric set is absent
iff the corresponding source audit lacks a numeric value or that value is
exactly 0 (JavaScript truthiness conflates the two); a nonzero value is
extracted (rounded for FCP/LCP/TBT/SI, unrounded for CLS). -/
theorem extractMetrics_timing_absent_iff (report : Report) :
    ((extractMetrics report).fcp = none ↔
      report.audits.fcp.bind Audit.numericValue = none ∨
      report.audits.fcp.bind Audit.numericValue = some 0) ∧
    ((extractMetrics report).lcp = none ↔
      report.audits.lcp.bind Audit.numericValue = none ∨
      report.audits.lcp.bind Audit.numericValue = some 0) ∧
    ((extractMetrics report).tbt = none ↔
      report.audits.tbt.bind Audit.numericValue = none ∨
      report.audits.tbt.bind Audit.numericValue = some 0) ∧
    ((extractMetrics report).si = none ↔
      report.audits.si.bind Audit.numericValue = none ∨
      report.audits.si.bind Audit.numericValue = some 0) ∧
    ((extractMetrics report).cls = none ↔
      report.audits.cls.bind Audit.numericValue = none ∨
      report.audits.cls.bind Audit.numericValue = some 0) ∧
    (∀ v, report.audits.fcp.bind Audit.numericValue = some v → v ≠ 0 →
      (extractMetrics report).fcp = some (jsRound v)) ∧
    (∀ v, report.audits.lcp.bind Audit.numericValue = some v → v ≠ 0 →
      (extractMetrics report).lcp = some (jsRound v)) ∧
    (∀ v, report.audits.tbt.bind Audit.numericValue = some v → v ≠ 0 →
      (extractMetrics report).tbt = some (jsRound v)) ∧
    (∀ v, report.audits.si.bind Audit.numericValue = some v → v ≠ 0 →
      (extractMetrics report).si = some (jsRound v)) ∧
    (∀ v, report.audits.cls.bind Audit.numericValue = some v → v ≠ 0 →
      (extractMetrics report).cls = some v) :=
  ⟨timingField_none_iff _, timingField_none_iff _, timingField_none_iff _,
   timingField_none_iff _, clsField_none_iff _,
   fun v h hv => timingField_some _ v h hv,
   fun v h hv => timingField_some _ v h hv,
   fun v h hv => timingField_some _ v h hv,
   fun v h hv => timingField_some _ v h hv,
   fun v h hv => clsField_some _ v h hv⟩

/-- C3 witness: on the concrete report, the missing TBT audit gives an
absent TBT field and the nonzero LCP value 3 is extracted as round(3). -/
theorem extractMetrics_timing_absent_iff_witness :
    (extractMetrics demoReport).tbt = none ∧
    (extractMetrics demoReport).lcp = some (jsRound 3) := by
  have h := extractMetrics_timing_absent_iff demoReport
  exact ⟨h.2.2.1.mpr (Or.inl rfl), h.2.2.2.2.2.2.1 3 rfl (by norm_num)⟩

/-- C3 counterexample: the FCP source audit carries the numeric value
exactly 0, yet the extracted FCP field is absent — refuting the claim that
a field is absent only if the source lacks a numeric value and that a
value of exactly 0 is extracted as 0. -/
theorem extractMetrics_zero_timing_counterexample :
    reportZeroFcp.audits.fcp.bind Audit.numericValue = some 0 ∧
    (extractMetrics reportZeroFcp).fcp = none :=
  ⟨rfl, by simp [extractMetrics, reportZeroFcp, timingField]⟩

/-- A score in [0,1] rounds to an integer in [0,100]. -/
theorem jsRound_score_bounds (q : ℚ) (h0 : 0 ≤ q) (h1 : q ≤ 1) :
    0 ≤ jsRound (q * 100) ∧ jsRound (q * 100) ≤ 100 := by
  rw [jsRound_eq_floor]
  constructor
  · exact Int.le_floor.mpr (by push_cast; nlinarith)
  · have h : ⌊q * 100 + 1 / 2⌋ < 101 := Int.floor_lt.mpr (by push_cast; nlinarith)
    omega

/-- C4: when all four category scores lie in [0,1], each extracted score
field equals round(score × 100), an integer in [0,100]; and a present CLS
field is nonnegative whenever the source numeric value is. -/
theorem extractMetrics_score_bounds (report : Report) (qp qa qb qs : ℚ)
    (hp : report.categories.performance.score = some qp)
    (ha : report.categories.accessibility.score = some qa)
    (hb : report.categories.bestPractices.score = some qb)
    (hs : report.categories.seo.score = some qs)
    (hp0 : 0 ≤ qp) (hp1 : qp ≤ 1) (ha0 : 0 ≤ qa) (ha1 : qa ≤ 1)
    (hb0 : 0 ≤ qb) (hb1 : qb ≤ 1) (hs0 : 0 ≤ qs) (hs1 : qs ≤ 1) :
    ((extractMetrics report).performance = some (jsRound (qp * 100)) ∧
      0 ≤ jsRound (qp * 100) ∧ jsRound (qp * 100) ≤ 100) ∧
    ((extractMetrics report).accessibility = some (jsRound (qa * 100)) ∧
      0 ≤ jsRound (qa * 100) ∧ jsRound (qa * 100) ≤ 100) ∧
    ((extractMetrics report).bestPractices = some (jsRound (qb * 100)) ∧
      0 ≤ jsRound (qb * 100) ∧ jsRound (qb * 100) ≤ 100) ∧
    ((extractMetrics report).seo = some (jsRound (qs * 100)) ∧
      0 ≤ jsRound (qs * 100) ∧ jsRound (qs * 100) ≤ 100) ∧
    (∀ v w, report.audits.cls.bind Audit.numericValue = some v → 0 ≤ v →
      (extractMetrics report).cls = some w → 0 ≤ w) := by
  refine ⟨⟨by simp [extractMetrics, scoreTimes100, hp],
      jsRound_score_bounds qp hp0 hp1⟩,
    ⟨by simp [extractMetrics, scoreTimes100, ha],
      jsRound_score_bounds qa ha0 ha1⟩,
    ⟨by simp [extractMetrics, scoreTimes100, hb],
      jsRound_score_bounds qb hb0 hb1⟩,
    ⟨by simp [extractMetrics, scoreTimes100, hs],
      jsRound_score_bounds qs hs0 hs1⟩,
    fun v w hv hv0 hw => ?_⟩
  have hcls : (extractMetrics report).cls = clsField report.audits.cls := rfl
  rw [hcls] at hw
  by_cases h0 : v = 0
  · simp [clsField, hv, h0] at hw
  · simp [clsField, hv, h0] at hw
    exact hw ▸ hv0

/-- C4 witness: the theorem applied to the concrete scored report, plus the
CLS part instantiated at its concrete value 1/20. -/
theorem extractMetrics_score_bounds_witness :
    ((extractMetrics demoScoredReport).performance = some (jsRound (1 * 100)) ∧
      0 ≤ jsRound ((1 : ℚ) * 100) ∧ jsRound ((1 : ℚ) * 100) ≤ 100) ∧
    (0 : ℚ) ≤ 1 / 20 := by
  have h := extractMetrics_score_bounds demoScoredReport 1 0 (1 / 2) (9 / 10)
    rfl rfl rfl rfl (by norm_num) (by norm_num) (by norm_num) (by norm_num)
    (by norm_num) (by norm_num) (by norm_num) (by norm_num)
  have hcls : (extractMetrics demoScoredReport).cls = some (1 / 20) := by
    norm_num [extractMetrics, demoScoredReport, clsField]
  exact ⟨h.1, h.2.2.2.2 (1 / 20) (1 / 20) rfl (by norm_num) hcls⟩

set_option maxRecDepth 8000 in
/-- C5: the tabular export has one header row plus one data row per URL
result, every row has exactly 19 cells (URL plus 9 desktop plus 9 mobile
metrics) however many values are absent, every absent metric renders as the
literal cell "ERROR", and the emitted file content is exactly those rows
comma-joined and newline-joined. -/
theorem csvTable_shape (results : List UrlResult) (hne : results ≠ []) :
    (csvTable results).length = results.length + 1 ∧
    (∀ row ∈ csvTable results, row.length = 19) ∧
    (∀ ms : MetricSet,
      (ms.performance = none → (msCells ms).getD 0 "" = "ERROR") ∧
      (ms.accessibility = none → (msCells ms).getD 1 "" = "ERROR") ∧
      (ms.bestPractices = none → (msCells ms).getD 2 "" = "ERROR") ∧
      (ms.seo = none → (msCells ms).getD 3 "" = "ERROR") ∧
      (ms.fcp = none → (msCells ms).getD 4 "" = "ERROR") ∧
      (ms.lcp = none → (msCells ms).getD 5 "" = "ERROR") ∧
      (ms.tbt = none → (msCells ms).getD 6 "" = "ERROR") ∧
      (ms.cls = none → (msCells ms).getD 7 "" = "ERROR") ∧
      (ms.si = none → (msCells ms).getD 8 "" = "ERROR")) ∧
    csvHeader = joinSep "," csvHeaderCells ++ "\n" ∧
    csvContent results = joinSep "\n" ((csvTable results).map (joinSep ",")) := by
  obtain ⟨r, rs, rfl⟩ : ∃ r rs, results = r :: rs := by
    cases results with
    | nil => exact absurd rfl hne
    | cons r rs => exact ⟨r, rs, rfl⟩
  have hdr : csvHeader = joinSep "," csvHeaderCells ++ "\n" := by decide
  refine ⟨by simp [csvTable], ?_, ?_, hdr, ?_⟩
  · intro row hrow
    rcases List.mem_cons.mp hrow with rfl | hrow
    · rfl
    · obtain ⟨r', _, rfl⟩ := List.mem_map.mp hrow
      simp [csvRow, msCells]
  · intro ms
    refine ⟨fun h => ?_, fun h => ?_, fun h => ?_, fun h => ?_, fun h => ?_,
      fun h => ?_, fun h => ?_, fun h => ?_, fun h => ?_⟩ <;>
      simp [msCells, h, csvCellI, csvCellQ]
  · have hmap : joinSep "," ∘ csvRow = csvLine := rfl
    simp only [csvContent, csvTable, List.map_cons, List.map_map, hmap, hdr]
    rfl

/-- C5 witness: the theorem applied to the concrete two-URL batch. -/
theorem csvTable_shape_witness :
    analyzeUrls demoUrls demoAudit ≠ [] ∧
    (csvTable (analyzeUrls demoUrls demoAudit)).length =
      (analyzeUrls demoUrls demoAudit).length + 1 :=
  ⟨by decide, (csvTable_shape (analyzeUrls demoUrls demoAudit) (by decide)).1⟩

/-- Decoding inverts encoding for nullable integer fields. -/
theorem decodeOptInt_optIntJson (o : Option ℤ) :
    decodeOptInt (some (optIntJson o)) = some o := by
  cases o <;> simp [optIntJson, decodeOptInt]

/-- Decoding inverts encoding for nullable number fields. -/
theorem decodeOptRat_optRatJson (o : Option ℚ) :
    decodeOptRat (some (optRatJson o)) = some o := by
  cases o <;> simp [optRatJson, decodeOptRat]

/-- Deserializing an encoded metric record recovers it exactly. -/
theorem metricSet_fromJson_toJson (ms : MetricSet) :
    MetricSet.fromJson ms.toJson = some ms := by
  obtain ⟨p, a, b, s, f, l, t, c, si, e⟩ := ms
  cases e <;>
    simp [MetricSet.toJson, MetricSet.fromJson, Json.getField, List.lookup,
      decodeOptInt_optIntJson, decodeOptRat_optRatJson, decodeErrField]

/-- Deserializing an encoded URL entry recovers it exactly. -/
theorem urlResult_fromJson_toJson (r : UrlResult) :
    UrlResult.fromJson r.toJson = some r := by
  obtain ⟨u, d, m⟩ := r
  simp [UrlResult.toJson, UrlResult.fromJson, Json.getField, List.lookup,
    decodeStr, metricSet_fromJson_toJson]

/-- Deserializing an encoded result list recovers it exactly. -/
theorem decodeResultList_map (rs : List UrlResult) :
    decodeResultList (rs.map UrlResult.toJson) = some rs := by
  induction rs with
  | nil => rfl
  | cons r rs ih => simp [decodeResultList, urlResult_fromJson_toJson, ih]

/-- C7: deserializing the document written by the historical archive writer
reproduces exactly the run timestamp (raw and locale-formatted) and every
value of the batch result passed to the writer. -/
theorem historicalData_roundtrip (h : HistoricalData) :
    HistoricalData.fromJson h.toJson = some h := by
  obtain ⟨ts, d, rs⟩ := h
  simp [HistoricalData.toJson, HistoricalData.fromJson, Json.getField,
    List.lookup, decodeStr, decodeResultList_map]

/-- C9 counterexample: with a clock that advances after the first reading,
a run whose first reading (its "run timestamp") agrees with a frozen-clock
run produces a different archive artifact, and within the run the archive's
timestamp differs from the run timestamp — so the emitters are not pure
functions of (batch result, single run timestamp) and the three artifacts
do not all carry one run timestamp. -/
theorem pipeline_not_single_timestamp :
    clockLag 0 = clockConstA 0 ∧
    (pipelineArtifacts [] clockLag).2.2.data.timestamp ≠
      (pipelineArtifacts [] clockConstA).2.2.data.timestamp ∧
    (pipelineArtifacts [] clockLag).2.2.data.timestamp ≠ (clockLag 0).iso := by
  refine ⟨rfl, ?_, ?_⟩ <;> decide

/-- C9 (amended): each emitter is a deterministic pure function of the batch
result and the clock readings it itself makes (two runs agreeing on all
five readings produce identical artifacts), and when the clock does not
advance during emission all three artifacts carry that single timestamp. -/
theorem pipeline_deterministic_per_reading (results : List UrlResult)
    (c c' : ℕ → DateVal) (h : ∀ k, k ≤ 4 → c k = c' k) :
    pipelineArtifacts results c = pipelineArtifacts results c' ∧
    ((∀ k, k ≤ 4 → c k = c 0) →
      (pipelineArtifacts results c).1.filename =
        "lighthouse_results_" ++ tsSlug (c 0).iso ++ ".csv" ∧
      (pipelineArtifacts results c).2.1.filename =
        "lighthouse_email_" ++ tsSlug (c 0).iso ++ ".html" ∧
      (pipelineArtifacts results c).2.1.content =
        htmlContent results (c 0).locale ∧
      (pipelineArtifacts results c).2.2.filename =
        "historical-data/lighthouse_" ++ tsSlug (c 0).iso ++ ".json" ∧
      (pipelineArtifacts results c).2.2.data.timestamp = (c 0).iso ∧
      (pipelineArtifacts results c).2.2.data.date = (c 0).locale) := by
  constructor
  · rw [pipelineArtifacts, pipelineArtifacts, h 0 (by omega), h 1 (by omega),
      h 2 (by omega), h 3 (by omega), h 4 (by omega)]
  · intro hc
    rw [pipelineArtifacts, hc 1 (by omega), hc 2 (by omega), hc 3 (by omega),
      hc 4 (by omega)]
    exact ⟨rfl, rfl, rfl, rfl, rfl, rfl⟩

/-- C9 amended witness: the theorem applied to the empty batch and the
frozen clock, with both hypotheses discharged. -/
theorem pipeline_deterministic_per_reading_witness :
    pipelineArtifacts [] clockConstA = pipelineArtifacts [] clockConstA ∧
    (pipelineArtifacts [] clockConstA).2.2.data.timestamp =
      (clockConstA 0).iso :=
  ⟨(pipeline_deterministic_per_reading [] clockConstA clockConstA
      fun _ _ => rfl).1,
   ((pipeline_deterministic_per_reading [] clockConstA clockConstA
      fun _ _ => rfl).2 fun _ _ => rfl).2.2.2.2.1⟩

end Analyzer
